import Mathlib

/-!
Verification of the inventory web application (src/app.js together with
db/db_init.js). The application binds five Express routes to five SQL
statements over a single `stuff` table. Each handler issues exactly one
statement through `db.execute` and produces exactly one response; the
statement outcome (an error, or the rows / result descriptor) is modelled
explicitly, with the store-error branch of the callback represented by an
`Option StoreError` argument.
-/

/-- A row of the `stuff` table, as created by db/db_init.js:
`id INT PK AUTO_INCREMENT, item VARCHAR NOT NULL, quantity INT NOT NULL,
description VARCHAR NULL`. -/
structure Row where
  id : Nat
  item : String
  quantity : Int
  description : Option String
deriving Repr, DecidableEq

/-- The relational store: the current rows of `stuff` together with the
auto-increment counter the store uses to assign the next `id`. -/
structure Database where
  rows : List Row
  nextId : Nat
deriving Repr, DecidableEq

/-- A row as projected by `read_stuff_all_sql`
(`SELECT id, item, quantity FROM stuff`): no description column. -/
structure ListedRow where
  id : Nat
  item : String
  quantity : Int
deriving Repr, DecidableEq

/-- A form-encoded POST body as read by the handlers: fields
`name`, `quantity`, `description` (absent fields are `none`). -/
structure Body where
  name : String
  quantity : Int
  description : Option String
deriving Repr, DecidableEq

/-- An opaque store-level error payload, surfaced raw to the client. -/
abbrev StoreError := String

/-- Data handed to `res.render`: either the full inventory for the
`stuff` view or a single row for the `item` view. -/
inductive ViewData where
  | stuffList (inventory : List ListedRow)
  | itemDetail (data : Row)
deriving Repr, DecidableEq

/-- The single HTTP response a handler produces. -/
inductive Response where
  | render (v : ViewData)
  | redirect (path : String)
  | status500 (err : StoreError)
  | status404 (body : String)
deriving Repr, DecidableEq

/-- `read_stuff_all_sql`: `SELECT id, item, quantity FROM stuff`. -/
def selectAll (db : Database) : List ListedRow :=
  db.rows.map (fun r => ⟨r.id, r.item, r.quantity⟩)

/-- `read_stuff_item_sql`:
`SELECT id, item, quantity, description FROM stuff WHERE id = ?`. -/
def selectItem (db : Database) (id : Nat) : List Row :=
  db.rows.filter (fun r => r.id == id)

/-- `delete_item_sql`: `DELETE FROM stuff WHERE id = ?`. -/
def deleteRows (db : Database) (id : Nat) : Database :=
  ⟨db.rows.filter (fun r => !(r.id == id)), db.nextId⟩

/-- `update_item_sql`:
`UPDATE stuff SET item = ?, quantity = ?, description = ? WHERE id = ?`. -/
def updateRows (db : Database) (id : Nat) (item : String) (quantity : Int)
    (description : Option String) : Database :=
  ⟨db.rows.map (fun r => if r.id = id then ⟨r.id, item, quantity, description⟩ else r),
   db.nextId⟩

/-- `create_item_sql`: `INSERT INTO stuff (item, quantity) VALUES (?, ?)`.
Returns the new store state and the generated key (`results.insertId`). -/
def insertRow (db : Database) (item : String) (quantity : Int) : Database × Nat :=
  (⟨db.rows ++ [⟨db.nextId, item, quantity, none⟩], db.nextId + 1⟩, db.nextId)

/-- The List path, target of the Delete redirect (`res.redirect("/stuff")`). -/
def listPath : String := "/stuff"

/-- The Detail path of an id, target of the Create and Update redirects. -/
def itemPath (id : Nat) : String := "/stuff/item/" ++ toString id

/-- The 404 body of the Detail handler:
`No item found with id = "${req.params.id}"`. -/
def notFoundMsg (id : Nat) : String :=
  "No item found with id = \"" ++ toString id ++ "\""

/-- Handler for `GET /stuff`. -/
def listHandler (err : Option StoreError) (db : Database) : Database × Response :=
  match err with
  | some e => (db, .status500 e)
  | none => (db, .render (.stuffList (selectAll db)))

/-- Handler for `GET /stuff/item/:id`. The code tests
`results.length == 0` and otherwise renders `results[0]`. -/
def detailHandler (err : Option StoreError) (db : Database) (id : Nat) :
    Database × Response :=
  match err with
  | some e => (db, .status500 e)
  | none =>
    match selectItem db id with
    | [] => (db, .status404 (notFoundMsg id))
    | data :: _ => (db, .render (.itemDetail data))

/-- Handler for `GET /stuff/item/:id/delete`. -/
def deleteHandler (err : Option StoreError) (db : Database) (id : Nat) :
    Database × Response :=
  match err with
  | some e => (db, .status500 e)
  | none => (deleteRows db id, .redirect listPath)

/-- Handler for `POST /stuff/item/:id`: passes `req.body.name`,
`req.body.quantity`, `req.body.description`, `req.params.id`. -/
def updateHandler (err : Option StoreError) (db : Database) (id : Nat)
    (body : Body) : Database × Response :=
  match err with
  | some e => (db, .status500 e)
  | none =>
    (updateRows db id body.name body.quantity body.description,
     .redirect (itemPath id))

/-- Handler for `POST /stuff`: passes `req.body.name`, `req.body.quantity`
and redirects to the Detail path of `results.insertId`. -/
def createHandler (err : Option StoreError) (db : Database) (body : Body) :
    Database × Response :=
  match err with
  | some e => (db, .status500 e)
  | none =>
    let r := insertRow db body.name body.quantity
    (r.1, .redirect (itemPath r.2))

/-- Sample store used by concrete witnesses. -/
def dbEx : Database := ⟨[⟨1, "Widgets", 5, some "cool"⟩, ⟨2, "Gizmos", 100, none⟩], 3⟩

/-- Sample update body used by concrete witnesses. -/
def bodyEx : Body := ⟨"X", 9, some "Y"⟩

/-- Every row kept by the Detail query matches the requested id. -/
theorem mem_selectItem_id (db : Database) (id : Nat) (r : Row)
    (h : r ∈ selectItem db id) : r.id = id := by
  simp only [selectItem, List.mem_filter, beq_iff_eq] at h
  exact h.2

/-- After the Update statement, every row matching the id carries exactly
the supplied fields. -/
theorem mem_selectItem_updateRows (db : Database) (id : Nat) (n : String)
    (q : Int) (d : Option String) (r : Row)
    (h : r ∈ selectItem (updateRows db id n q d) id) : r = ⟨id, n, q, d⟩ := by
  have hid := mem_selectItem_id _ _ _ h
  simp only [selectItem, updateRows, List.mem_filter, List.mem_map] at h
  obtain ⟨⟨s, _, hfs⟩, _⟩ := h
  by_cases hcase : s.id = id
  · rw [if_pos hcase] at hfs
    rw [← hfs]
    simp [hcase]
  · rw [if_neg hcase] at hfs
    rw [← hfs] at hid
    exact absurd hid hcase

/-- If some row matches the id, the Detail query after Update is nonempty. -/
theorem selectItem_updateRows_ne_nil (db : Database) (id : Nat) (n : String)
    (q : Int) (d : Option String) (h : ∃ r ∈ db.rows, r.id = id) :
    selectItem (updateRows db id n q d) id ≠ [] := by
  obtain ⟨r, hr, hid⟩ := h
  intro hnil
  have hmem : (⟨r.id, n, q, d⟩ : Row) ∈ selectItem (updateRows db id n q d) id := by
    simp only [selectItem, updateRows, List.mem_filter, List.mem_map, beq_iff_eq]
    exact ⟨⟨r, hr, by rw [if_pos hid]⟩, hid⟩
  rw [hnil] at hmem
  exact absurd hmem (List.not_mem_nil _)

/-- The Detail query finds nothing after the Delete statement on the same id. -/
theorem selectItem_deleteRows (db : Database) (id : Nat) :
    selectItem (deleteRows db id) id = [] := by
  simp only [selectItem, deleteRows, List.filter_filter]
  apply List.filter_eq_nil_iff.mpr
  intro r _
  simp

/-- C1: for every id for which the Detail store query returns zero rows and
no store error, the Detail handler responds 404 with a plain-text body that
names the requested id, and it does not render the detail view. -/
theorem detail_notFound (db : Database) (id : Nat)
    (h : selectItem db id = []) :
    (detailHandler none db id).2 = Response.status404 (notFoundMsg id) ∧
    (∃ pre post, notFoundMsg id = pre ++ toString id ++ post) ∧
    ∀ v, (detailHandler none db id).2 ≠ Response.render v := by
  refine ⟨?_, ⟨"No item found with id = \"", "\"", rfl⟩, ?_⟩ <;>
    simp [detailHandler, h]

/-- Witness for C1 at an empty store and id 5. -/
theorem detail_notFound_witness :
    (detailHandler none ⟨[], 1⟩ 5).2 = Response.status404 (notFoundMsg 5) ∧
    (∃ pre post, notFoundMsg 5 = pre ++ toString 5 ++ post) ∧
    ∀ v, (detailHandler none ⟨[], 1⟩ 5).2 ≠ Response.render v :=
  detail_notFound ⟨[], 1⟩ 5 (by decide)

/-- The number of rows matched (and so affected) by a Delete or Update on
a given id. -/
def countMatching (db : Database) (id : Nat) : Nat :=
  (selectItem db id).length

/-- C2: when the store reports zero affected rows for Delete or Update and
no store error, the handler responds exactly as on success — Delete
redirects to the List path and Update redirects to the Detail path of the
same id — and the response never depends on how many rows were affected. -/
theorem zeroAffected_like_success (db : Database) (id : Nat) (body : Body)
    (h : countMatching db id = 0) :
    (deleteHandler none db id).2 = Response.redirect listPath ∧
    (updateHandler none db id body).2 = Response.redirect (itemPath id) ∧
    ∀ db₂ : Database,
      (deleteHandler none db₂ id).2 = (deleteHandler none db id).2 ∧
      (updateHandler none db₂ id body).2 = (updateHandler none db id body).2 := by
  exact ⟨rfl, rfl, fun db₂ => ⟨rfl, rfl⟩⟩

/-- Witness for C2 at a store with no row of id 7. -/
theorem zeroAffected_like_success_witness :
    (deleteHandler none dbEx 7).2 = Response.redirect listPath ∧
    (updateHandler none dbEx 7 bodyEx).2 = Response.redirect (itemPath 7) ∧
    ∀ db₂ : Database,
      (deleteHandler none db₂ 7).2 = (deleteHandler none dbEx 7).2 ∧
      (updateHandler none db₂ 7 bodyEx).2 = (updateHandler none dbEx 7 bodyEx).2 :=
  zeroAffected_like_success dbEx 7 bodyEx (by decide)

/-- C3: after a successful Update on an existing id, a subsequent Detail
for that id renders exactly the supplied name, quantity and description —
a full overwrite of all three mutable fields, with no merging. -/
theorem update_then_detail (db : Database) (id : Nat) (body : Body)
    (h : ∃ r ∈ db.rows, r.id = id) :
    ∃ data : Row,
      (detailHandler none (updateHandler none db id body).1 id).2
        = Response.render (ViewData.itemDetail data) ∧
      data.id = id ∧ data.item = body.name ∧
      data.quantity = body.quantity ∧ data.description = body.description := by
  have hne := selectItem_updateRows_ne_nil db id body.name body.quantity
    body.description h
  have hdb : (updateHandler none db id body).1
      = updateRows db id body.name body.quantity body.description := rfl
  rw [hdb]
  cases hsel : selectItem (updateRows db id body.name body.quantity body.description) id with
  | nil => exact absurd hsel hne
  | cons data rest =>
    have hmem : data ∈ selectItem
        (updateRows db id body.name body.quantity body.description) id := by
      rw [hsel]; exact List.mem_cons_self _ _
    have hdata := mem_selectItem_updateRows db id body.name body.quantity
      body.description data hmem
    refine ⟨data, ?_, ?_, ?_, ?_, ?_⟩ <;> rw [hdata] <;>
      simp [detailHandler, hsel, hdata]

/-- Witness for C3 on the sample store at id 1. -/
theorem update_then_detail_witness :
    ∃ data : Row,
      (detailHandler none (updateHandler none dbEx 1 bodyEx).1 1).2
        = Response.render (ViewData.itemDetail data) ∧
      data.id = 1 ∧ data.item = bodyEx.name ∧
      data.quantity = bodyEx.quantity ∧ data.description = bodyEx.description :=
  update_then_detail dbEx 1 bodyEx ⟨⟨1, "Widgets", 5, some "cool"⟩, by decide, rfl⟩

/-- C4: a Create with no store error appends exactly one row taking item
and quantity from the body fields name and quantity, with a null
description and the store-assigned id, and redirects to the Detail path of
the generated id taken from the result descriptor. -/
theorem create_inserts (db : Database) (body : Body) :
    createHandler none db body
      = (⟨db.rows ++ [⟨db.nextId, body.name, body.quantity, none⟩], db.nextId + 1⟩,
         Response.redirect (itemPath (insertRow db body.name body.quantity).2)) ∧
    (insertRow db body.name body.quantity).2 = db.nextId :=
  ⟨rfl, rfl⟩

/-- C5: for each of the five operations, a store error yields a 500
response carrying the raw error payload, the store state is untouched (no
retry, no other store call), and neither a render nor a redirect occurs. -/
theorem storeError_500 (db : Database) (e : StoreError) (id : Nat) (body : Body) :
    listHandler (some e) db = (db, Response.status500 e) ∧
    detailHandler (some e) db id = (db, Response.status500 e) ∧
    deleteHandler (some e) db id = (db, Response.status500 e) ∧
    updateHandler (some e) db id body = (db, Response.status500 e) ∧
    createHandler (some e) db body = (db, Response.status500 e) :=
  ⟨rfl, rfl, rfl, rfl, rfl⟩

/-- C6: a successful List renders every row currently in the store, each
projected to exactly id, item and quantity, with no filter, and the
rendered count equals the total row count. -/
theorem list_renders_all (db : Database) :
    listHandler none db
      = (db, Response.render (ViewData.stuffList
          (db.rows.map (fun r => ⟨r.id, r.item, r.quantity⟩)))) ∧
    (selectAll db).length = db.rows.length := by
  exact ⟨rfl, by simp [selectAll]⟩

/-- C7: after a successful Delete on an existing id, List no longer
contains a row with that id and Detail for that id responds 404. -/
theorem delete_then_gone (db : Database) (id : Nat)
    (h : ∃ r ∈ db.rows, r.id = id) :
    (∀ e ∈ selectAll (deleteHandler none db id).1, e.id ≠ id) ∧
    (detailHandler none (deleteHandler none db id).1 id).2
      = Response.status404 (notFoundMsg id) := by
  have hdb : (deleteHandler none db id).1 = deleteRows db id := rfl
  rw [hdb]
  constructor
  · intro e he
    simp only [selectAll, deleteRows, List.mem_map, List.mem_filter] at he
    obtain ⟨r, ⟨_, hr⟩, hre⟩ := he
    rw [← hre]
    simpa using hr
  · simp [detailHandler, selectItem_deleteRows]

/-- Witness for C7 on the sample store at id 1. -/
theorem delete_then_gone_witness :
    (∀ e ∈ selectAll (deleteHandler none dbEx 1).1, e.id ≠ 1) ∧
    (detailHandler none (deleteHandler none dbEx 1).1 1).2
      = Response.status404 (notFoundMsg 1) :=
  delete_then_gone dbEx 1 ⟨⟨1, "Widgets", 5, some "cool"⟩, by decide, rfl⟩

/-- C8: Delete is idempotent in effect — deleting the same id twice yields
the same store state and the same redirect response as deleting it once,
and that response is the redirect to the List path. -/
theorem delete_idempotent (db : Database) (id : Nat) :
    deleteHandler none (deleteHandler none db id).1 id = deleteHandler none db id ∧
    (deleteHandler none db id).2 = Response.redirect listPath := by
  refine ⟨?_, rfl⟩
  simp [deleteHandler, deleteRows, List.filter_filter, Bool.and_self]

/-- C9: Update touches only rows whose id equals the supplied path id: the
row count and the auto-increment counter are preserved, no row's id ever
changes, and every row with a different id is left entirely unchanged. -/
theorem update_frame (db : Database) (id : Nat) (body : Body) :
    ((updateHandler none db id body).1).nextId = db.nextId ∧
    ((updateHandler none db id body).1).rows.length = db.rows.length ∧
    ∀ i : Nat,
      (((updateHandler none db id body).1).rows[i]?.map Row.id)
        = (db.rows[i]?.map Row.id) ∧
      ∀ r : Row, db.rows[i]? = some r → r.id ≠ id →
        ((updateHandler none db id body).1).rows[i]? = some r := by
  have hdb : (updateHandler none db id body).1
      = updateRows db id body.name body.quantity body.description := rfl
  rw [hdb]
  refine ⟨rfl, by simp [updateRows], fun i => ⟨?_, fun r hr hne => ?_⟩⟩
  · simp only [updateRows, List.getElem?_map]
    cases db.rows[i]? with
    | none => rfl
    | some r =>
      by_cases hcase : r.id = id <;> simp [hcase]
  · simp only [updateRows, List.getElem?_map, hr, Option.map_some']
    rw [if_neg hne]

/-- Witness for C9 on the sample store: updating id 1 leaves the row of
id 2 unchanged and preserves every row's id. -/
theorem update_frame_witness :
    (((updateHandler none dbEx 1 bodyEx).1).rows[1]?.map Row.id)
      = (dbEx.rows[1]?.map Row.id) ∧
    ((updateHandler none dbEx 1 bodyEx).1).rows[1]? = some ⟨2, "Gizmos", 100, none⟩ :=
  ⟨((update_frame dbEx 1 bodyEx).2.2 1).1,
   ((update_frame dbEx 1 bodyEx).2.2 1).2 ⟨2, "Gizmos", 100, none⟩ (by decide) (by decide)⟩

/-- C10: Create ignores any description body field — two Create requests
differing only in the description field produce identical store states and
identical responses, whatever the store outcome. -/
theorem create_ignores_description (err : Option StoreError) (db : Database)
    (name : String) (quantity : Int) (d₁ d₂ : Option String) :
    createHandler err db ⟨name, quantity, d₁⟩
      = createHandler err db ⟨name, quantity, d₂⟩ := by
  cases err <;> rfl
